import Mathlib

/-!
Verification of the rocthinc conversation-extraction pipeline.

The repository holds two variant implementations of the same design:
`src/main.py` (FastAPI app with ChatGPT-specific parsers) and
`src/api/index.py` (a compact variant of the same app).  Definitions below
are shallow embeddings of the Python functions of those two files.

Modelling conventions:
- Python strings are Lean `String`s (sequences of code points, `s.data`);
  Python-semantics primitives (`in`, `lower`, `strip`, `split`, `join`,
  `replace`, `capitalize`, truthiness of `or`) are defined explicitly below
  over `List Char` so that every definition evaluates inside the kernel.
- Network and browser I/O (`requests.get`, Playwright) is modelled by
  passing the fetched/rendered document in as a value; the outcome of the
  direct HTTP GET is the inductive `DirectOutcome`.
- An HTML document is modelled by `HtmlDoc`: the raw markup text together
  with the three parsed views the code computes from it with external
  libraries (BeautifulSoup element scan, regex tag-stripping, and the
  decoded `__NEXT_DATA__` JSON mapping).  `roleNodes` is the document-order
  list of elements bearing a `data-message-author-role` attribute,
  `strippedText` the result of `strip_html_to_text`, and `shareMapping` the
  decoded message mapping (`none` when the script tag is absent, the JSON
  does not parse, or neither probed framework shape yields a mapping).
- `HTTPException` raising functions become `Except String` with the exact
  user-facing detail strings of the source.
-/

/-- Python `str.lower()` (character-wise; inputs used by the code are ASCII). -/
def pyLower (s : String) : String := String.mk (s.data.map Char.toLower)

/-- Worker for `strContains`. -/
def containsSeq (needle : List Char) : List Char → Bool
  | [] => needle.isEmpty
  | c :: rest => needle.isPrefixOf (c :: rest) || containsSeq needle rest

/-- Python `needle in hay` on strings (substring test). -/
def strContains (hay needle : String) : Bool := containsSeq needle.data hay.data

/-- Python `str.strip()` with no argument (trim leading/trailing whitespace). -/
def pyStrip (s : String) : String :=
  String.mk ((s.data.dropWhile Char.isWhitespace).reverse.dropWhile Char.isWhitespace).reverse

/-- Worker for `pySplit`; the fuel starts at the length of the subject and
each step consumes at least one character, so the fuel-exhausted arm is
unreachable. -/
def splitFuel (sep : List Char) : Nat → List Char → List Char → List String
  | _, acc, [] => [String.mk acc.reverse]
  | 0, acc, l => [String.mk (acc.reverse ++ l)]
  | fuel + 1, acc, c :: rest =>
    if sep.isPrefixOf (c :: rest) && !sep.isEmpty then
      String.mk acc.reverse :: splitFuel sep fuel [] (rest.drop (sep.length - 1))
    else
      splitFuel sep fuel (c :: acc) rest

/-- Python `s.split(sep)` for a non-empty separator. -/
def pySplit (s sep : String) : List String := splitFuel sep.data s.data.length [] s.data

/-- Python `sep.join(parts)`. -/
def pyJoin (sep : String) : List String → String
  | [] => ""
  | [x] => x
  | x :: y :: xs => x ++ sep ++ pyJoin sep (y :: xs)

/-- Worker for `pyReplace`; fuel as in `splitFuel`.  Matches are found left to
right, are non-overlapping, and the replacement text is not rescanned —
exactly Python `str.replace`. -/
def replaceFuel (pat rep : List Char) : Nat → List Char → List Char
  | _, [] => []
  | 0, l => l
  | fuel + 1, c :: rest =>
    if pat.isPrefixOf (c :: rest) && !pat.isEmpty then
      rep ++ replaceFuel pat rep fuel (rest.drop (pat.length - 1))
    else
      c :: replaceFuel pat rep fuel rest

/-- Python `s.replace(pat, rep)` for a non-empty pattern. -/
def pyReplace (s pat rep : String) : String :=
  String.mk (replaceFuel pat.data rep.data s.data.length s.data)

/-- Python `str.capitalize()`: first character uppercased, the rest lowercased. -/
def pyCapitalize (s : String) : String :=
  match s.data with
  | [] => ""
  | c :: cs => String.mk (c.toUpper :: cs.map Char.toLower)

/-- Python `x or d` for a possibly-missing string (`None` and `""` are falsy). -/
def pyOrS (x : Option String) (d : String) : String :=
  match x with
  | some s => if s = "" then d else s
  | none => d

/-- Python `x or d` for a possibly-missing number (`None` and `0` are falsy). -/
def pyOrI (x : Option Int) (d : Int) : Int :=
  match x with
  | some v => if v = 0 then d else v
  | none => d

/-- Python list.foldr concatenation of strings, used on the specification side
to state "a header followed by one block per message". -/
def concatStrs (l : List String) : String := l.foldr (· ++ ·) ""

/-! ## Data model -/

/-- One conversational turn: the `{"speaker": ..., "content": ...}` dicts both
files build. -/
structure Message where
  speaker : String
  content : String
deriving DecidableEq

/-- The normalized conversation dict both files return from
`parse_conversation`. -/
structure Conversation where
  source : String
  url : String
  created_at : String
  messages : List Message
deriving DecidableEq

/-- A DOM element carrying a `data-message-author-role` attribute, as produced
by `soup.find_all(attrs={"data-message-author-role": True})` /
`soup.select("[data-message-author-role]")` in document order.  `role` is the
attribute value (possibly `""`); `text` is `get_text` with newline separators
and `strip=True`, i.e. the already-trimmed visible text of the element. -/
structure RoleNode where
  role : String
  text : String
deriving DecidableEq

/-- The `content` payload of one mapping message in the embedded
`__NEXT_DATA__` JSON (src/main.py lines 238-251).  `content_type` and `parts`
and `textField` model the corresponding JSON keys (`textField` is `some`
exactly when the payload has a string under key `"text"`); `serialized` is
`json.dumps(content, ensure_ascii=False)`, carried as an opaque attribute of
the payload since the code only uses it verbatim as a last-resort text. -/
structure ShareContent where
  content_type : Option String
  parts : Option (List String)
  textField : Option String
  serialized : String
deriving DecidableEq

/-- `json.dumps({})`, the `serialized` field of an absent/falsy content. -/
def emptyShareContent : ShareContent :=
  { content_type := none, parts := none, textField := none, serialized := "\x7b\x7d" }

/-- The `message` record wrapped by a mapping node. -/
structure ShareMessage where
  authorRole : Option String
  content : Option ShareContent
  create_time : Option Int
deriving DecidableEq

/-- One record of the `mapping` object, in mapping traversal order. -/
structure ShareNode where
  message : Option ShareMessage
  create_time : Option Int
deriving DecidableEq

/-- A fetched/rendered HTML document together with the parsed views the code
computes from it (see the module docstring). -/
structure HtmlDoc where
  raw : String
  roleNodes : List RoleNode
  strippedText : String
  shareMapping : Option (List ShareNode)
deriving DecidableEq

/-- One flattened item of the embedded-JSON parse
(src/main.py lines 254-261). -/
structure ShareItem where
  author : String
  text : String
  create_time : Int
  order : Nat
deriving DecidableEq

/-- Outcome of the direct `requests.get(url, timeout=20)` call: an HTTP
response with a status code and body, or a raised exception. -/
inductive DirectOutcome where
  | resp (status : Nat) (body : String)
  | exc (e : String)
deriving DecidableEq

/-! ## Shared helpers of both files -/

/-- `escape_latex` (src/main.py lines 375-390 = src/api/index.py lines 33-37):
the replacement table is applied sequentially in insertion order. -/
def escape_latex (text : String) : String :=
  let t := pyReplace text "\\" "\\textbackslash\x7b\x7d"
  let t := pyReplace t "&" "\\&"
  let t := pyReplace t "%" "\\%"
  let t := pyReplace t "$" "\\$"
  let t := pyReplace t "#" "\\#"
  let t := pyReplace t "_" "\\_"
  let t := pyReplace t "\x7b" "\\\x7b"
  let t := pyReplace t "\x7d" "\\\x7d"
  let t := pyReplace t "~" "\\textasciitilde\x7b\x7d"
  let t := pyReplace t "^" "\\textasciicircum\x7b\x7d"
  t

/-- The truncation marker appended by both generic fallbacks
(src/main.py line 345, src/api/index.py line 68). -/
def truncMarker : String := " … [truncated]"

/-- The truncation step of the generic fallback (src/main.py lines 343-345 =
src/api/index.py lines 67-68): `max_len = 20000`, Python slicing counts
characters. -/
def truncateText (t : String) : String :=
  if 20000 < t.length then String.mk (t.data.take 20000) ++ truncMarker else t

/-! ## src/main.py -/

/-- `detect_source` (src/main.py lines 54-64). -/
def detect_source (url : String) (doc : HtmlDoc) : String :=
  let url_l := pyLower url
  if strContains url_l "claude.ai" then "claude"
  else if strContains url_l "chatgpt.com" || strContains url_l "chat.openai.com" then "chatgpt"
  else if strContains url_l "perplexity.ai" then "perplexity"
  else if strContains (pyLower doc.raw) "assistant" then "generic-ai"
  else "unknown"

/-- Detail string of the `HTTPException` raised by `fetch_html_or_explain`
when `requests.get` raises (src/main.py lines 74-78). -/
def mainFetchErrExc (e : String) : String :=
  "rocthinc could not reach that URL. Check that it’s correct and publicly reachable. (Details: "
    ++ e ++ ")"

/-- Detail string of the `HTTPException` raised by `fetch_html_or_explain` on
a non-success status (src/main.py lines 80-87). -/
def mainFetchErrStatus (status : Nat) : String :=
  "The URL you pasted returned HTTP " ++ toString status
    ++ ". rocthinc can only export pages that load normally in a browser without extra steps."

/-- `fetch_html_or_explain` (src/main.py lines 67-89): fetch with `requests`
and bail with an `HTTPException` on any error — there is no second strategy
in this file. -/
def main_fetch_html_or_explain (d : DirectOutcome) : Except String String :=
  match d with
  | .exc e => Except.error (mainFetchErrExc e)
  | .resp status body =>
    if 400 ≤ status then Except.error (mainFetchErrStatus status) else Except.ok body

/-- The `bad_snippets` phrase list (src/main.py lines 131-138). -/
def bad_snippets : List String :=
  [ "by messaging chatgpt, an ai chatbot, you agree to our terms",
    "log in to chatgpt",
    "sign in to chatgpt",
    "get the app",
    "download the chatgpt app",
    "welcome to chatgpt" ]

/-- `looks_like_chatgpt_login_or_landing` (src/main.py lines 123-148). -/
def looks_like_chatgpt_login_or_landing (doc : HtmlDoc) : Bool :=
  let lower := pyLower doc.raw
  if bad_snippets.any (fun s => strContains lower s) then true
  else if doc.roleNodes.isEmpty then true
  else false

/-- `node.get("data-message-author-role") or "assistant"`
(src/main.py line 163). -/
def roleOf (n : RoleNode) : String := if n.role = "" then "assistant" else n.role

/-- `parse_chatgpt_dom` (src/main.py lines 151-182).  `now` models
`time.strftime(...)`. -/
def parse_chatgpt_dom (doc : HtmlDoc) (url now : String) : Option Conversation :=
  if doc.roleNodes.isEmpty then none
  else
    let messages := doc.roleNodes.filterMap fun n =>
      if n.text = "" then none else some { speaker := roleOf n, content := n.text }
    if messages.isEmpty then none
    else some { source := "chatgpt", url := url, created_at := now, messages := messages }

/-- Text extraction from one content payload (src/main.py lines 239-251). -/
def shareExtractText (c : ShareContent) : String :=
  let text := if c.content_type = some "text"
    then pyJoin "\n\n" ((c.parts.getD []).filter (fun p => p ≠ ""))
    else ""
  if text = "" then
    match c.textField with
    | some s => s
    | none => c.serialized
  else text

/-- The flattening loop over `mapping.items()` (src/main.py lines 230-262):
nodes without a (truthy) `message` are skipped and do not advance the
encounter counter. -/
def buildShareItems : List ShareNode → Nat → List ShareItem
  | [], _ => []
  | n :: rest, k =>
    match n.message with
    | none => buildShareItems rest k
    | some msg =>
      { author := pyOrS msg.authorRole "unknown",
        text := pyStrip (shareExtractText (msg.content.getD emptyShareContent)),
        create_time := pyOrI msg.create_time (pyOrI n.create_time 0),
        order := k } :: buildShareItems rest (k + 1)

/-- The role/emptiness filter (src/main.py lines 265-266). -/
def shareKeep (m : ShareItem) : Bool :=
  (m.author = "user" || m.author = "assistant" || m.author = "system") && m.text ≠ ""

/-- The sort key order of `items.sort(key=lambda m: (m["create_time"] or 0,
m["order"]))` (src/main.py line 271): lexicographic on (create_time, order);
the stored `create_time` is already `or 0`-normalized, so the key equals the
stored fields. -/
def shareKeyLe (a b : ShareItem) : Prop :=
  a.create_time < b.create_time ∨ (a.create_time = b.create_time ∧ a.order ≤ b.order)

instance : DecidableRel shareKeyLe := fun a b =>
  decidable_of_iff
    (a.create_time < b.create_time ∨ (a.create_time = b.create_time ∧ a.order ≤ b.order))
    Iff.rfl

instance : IsTotal ShareItem shareKeyLe where
  total a b := by
    rcases lt_trichotomy a.create_time b.create_time with h | h | h
    · exact Or.inl (Or.inl h)
    · rcases Nat.le_total a.order b.order with h2 | h2
      · exact Or.inl (Or.inr ⟨h, h2⟩)
      · exact Or.inr (Or.inr ⟨h.symm, h2⟩)
    · exact Or.inr (Or.inl h)

instance : IsTrans ShareItem shareKeyLe where
  trans a b c hab hbc := by
    rcases hab with h1 | ⟨e1, o1⟩
    · rcases hbc with h2 | ⟨e2, _⟩
      · exact Or.inl (h1.trans h2)
      · exact Or.inl (e2 ▸ h1)
    · rcases hbc with h2 | ⟨e2, o2⟩
      · exact Or.inl (e1 ▸ h2)
      · exact Or.inr ⟨e1.trans e2, o1.trans o2⟩

/-- Python's `list.sort` is a stable ascending sort by the key; modelled with
the (stable) insertion sort over the key order (the outputs agree for any
stable sort of a total preorder). -/
def sortShareItems (items : List ShareItem) : List ShareItem :=
  List.insertionSort shareKeyLe items

/-- `parse_chatgpt_share_from_html` (src/main.py lines 185-287), from the
point where the `__NEXT_DATA__` mapping has been decoded (`doc.shareMapping`;
`none` covers a missing script tag, unparseable JSON, neither framework shape
matching, or a non-dict `mapping`). -/
def parse_chatgpt_share_from_html (doc : HtmlDoc) (url now : String) : Option Conversation :=
  match doc.shareMapping with
  | none => none
  | some nodes =>
    let items := (buildShareItems nodes 0).filter (fun m => shareKeep m)
    if items.isEmpty then none
    else
      some { source := "chatgpt", url := url, created_at := now,
             messages := (sortShareItems items).map
               (fun m => { speaker := m.author, content := m.text }) }

/-- Detail of the wall/login `HTTPException` (src/main.py lines 307-317). -/
def mainWallDetail : String :=
  "rocthinc couldn’t see any messages at that ChatGPT URL. This usually means you’re still on a login / marketing / ‘open in app’ page.\n\nFix: open the link yourself in a browser, tap ‘Continue in browser’ if it asks, wait until you can see the full chat, then copy the URL from the browser’s address bar and paste THAT here."

/-- Detail of the extraction-exhausted `HTTPException`
(src/main.py lines 328-336). -/
def mainNoMessagesDetail : String :=
  "rocthinc rendered that ChatGPT page in a browser but still couldn’t extract any messages. The page may be using a newer layout or is not actually a conversation. If you’re sure it’s a chat, send this URL to the developer so they can update the parser."

/-- `parse_conversation` (src/main.py lines 292-355).  The rendered/fetched
page is passed in as `doc` (the fetch itself is I/O; a failing non-ChatGPT
fetch raises inside `fetch_html_or_explain`, modelled separately by
`main_fetch_html_or_explain`, and produces no Conversation). -/
def main_parse_conversation (url : String) (doc : HtmlDoc) (now : String) :
    Except String Conversation :=
  let url_l := pyLower url
  if strContains url_l "chatgpt.com" || strContains url_l "chat.openai.com" then
    if looks_like_chatgpt_login_or_landing doc then Except.error mainWallDetail
    else
      match parse_chatgpt_dom doc url now with
      | some conv => Except.ok conv
      | none =>
        match parse_chatgpt_share_from_html doc url now with
        | some conv => Except.ok conv
        | none => Except.error mainNoMessagesDetail
  else
    Except.ok { source := detect_source url doc, url := url, created_at := now,
                messages := [{ speaker := "assistant", content := truncateText doc.strippedText }] }

/-- `to_markdown` (src/main.py lines 360-372). -/
def to_markdown (conv : Conversation) : String :=
  pyJoin "\n"
    ([ "# Conversation Export", "",
       "**Source:** " ++ conv.source,
       "**URL:** " ++ conv.url,
       "**Exported at:** " ++ conv.created_at, "" ]
     ++ conv.messages.flatMap (fun m =>
          [ "**" ++ pyCapitalize m.speaker ++ ":** " ++ m.content, "" ]))

/-- `to_latex` (src/main.py lines 393-411). -/
def to_latex (conv : Conversation) : String :=
  pyJoin "\n"
    ([ "\\documentclass\x7barticle\x7d",
       "\\usepackage[margin=1in]\x7bgeometry\x7d",
       "\\usepackage[T1]\x7bfontenc\x7d",
       "\\usepackage[utf8]\x7binputenc\x7d",
       "\\begin\x7bdocument\x7d",
       "\\section*\x7bConversation Export\x7d",
       "",
       "\\textbf\x7bSource:\x7d " ++ escape_latex conv.source ++ "\\\\",
       "\\textbf\x7bURL:\x7d " ++ escape_latex conv.url ++ "\\\\",
       "\\textbf\x7bExported at:\x7d " ++ escape_latex conv.created_at ++ "\\\\[1em]" ]
     ++ conv.messages.map (fun m =>
          "\\textbf\x7b" ++ escape_latex (pyCapitalize m.speaker) ++ ":\x7d "
            ++ escape_latex m.content ++ "\\\\[0.75em]")
     ++ [ "\\end\x7bdocument\x7d" ])

/-- The format handling of `GET /export` (src/main.py lines 459-474). -/
def main_export_get_formats (formats : Option String) : List String :=
  match formats with
  | none => ["md", "tex"]
  | some s =>
    if s ≠ "" then
      let fmts := ((pySplit s ",").filter (fun f => pyStrip f ≠ "")).map (fun f => pyStrip f)
      let fmts := fmts.filter (fun f => f = "md" || f = "tex" || f = "pdf")
      if fmts.isEmpty then ["md", "tex"] else fmts
    else ["md", "tex"]

/-- `req.formats or ["md", "tex"]` of `POST /export` (src/main.py line 455 =
src/api/index.py line 118; `None` and `[]` are falsy). -/
def post_formats (reqFormats : Option (List String)) : List String :=
  match reqFormats with
  | none => ["md", "tex"]
  | some l => if l.isEmpty then ["md", "tex"] else l

/-! ## src/api/index.py -/

/-- `fetch_html_or_explain` (src/api/index.py lines 46-53): any exception or
non-success status falls back to the Playwright rendered fetch, whose result
is `renderedHtml`. -/
def api_fetch_html_or_explain (d : DirectOutcome) (renderedHtml : String) : String :=
  match d with
  | .resp status body => if 400 ≤ status then renderedHtml else body
  | .exc _ => renderedHtml

/-- The chat-platform domain list of src/api/index.py line 58. -/
def apiChatDomains : List String := ["chatgpt.com", "claude.ai", "grok.x.ai", "chat.openai.com"]

/-- `parse_conversation` (src/api/index.py lines 55-75), with the fetched
document passed in as `doc`. -/
def api_parse_conversation (url : String) (doc : HtmlDoc) (now : String) : Conversation :=
  let is_ai_chat := apiChatDomains.any (fun d => strContains (pyLower url) d)
  let messages :=
    if is_ai_chat then
      doc.roleNodes.map (fun n =>
        { speaker := if n.role = "user" then "You" else "Assistant", content := n.text })
    else
      [{ speaker := "Page_Content", content := truncateText doc.strippedText }]
  { source := if is_ai_chat then "chat" else "web", url := url, created_at := now,
    messages := messages }

/-- `to_markdown` (src/api/index.py lines 77-83). -/
def api_to_markdown (conv : Conversation) : String :=
  pyJoin "\n"
    ([ "# Page Export", "",
       "**Source:** " ++ conv.source,
       "**URL:** " ++ conv.url,
       "**Exported at:** " ++ conv.created_at, "" ]
     ++ conv.messages.flatMap (fun m => [ "**" ++ m.speaker ++ ":**", m.content, "" ]))

/-- `to_latex` (src/api/index.py lines 85-101).  The subscript
`conv["messages"][0]` raises `IndexError` on an empty message list, modelled
as `none`. -/
def api_to_latex (conv : Conversation) : Option String :=
  match conv.messages with
  | [] => none
  | m0 :: _ =>
    let headline := escape_latex (pyStrip ((pySplit m0.content "\n").headD ""))
    let url := escape_latex conv.url
    let exported_date := String.mk (conv.created_at.data.take 10)
    let content := escape_latex (pyJoin " " (conv.messages.map (fun m => m.content)))
    let content := pyReplace content "→" "$\\rightarrow$"
    let content := pyReplace content "–" "--"
    let content := pyReplace content "—" "---"
    let content := pyReplace content "“" "``"
    let content := pyReplace content "”" "\x27\x27"
    some ("\\documentclass\x7barticle\x7d\n\\usepackage[margin=1in]\x7bgeometry\x7d\n\\usepackage\x7bhyperref\x7d\n\\title\x7b"
      ++ headline ++ "\x7d\n\\date\x7bExported " ++ exported_date
      ++ "\x7d\n\\begin\x7bdocument\x7d\n\\maketitle\n\\url\x7b" ++ url ++ "\x7d\n"
      ++ content ++ "\n\\end\x7bdocument\x7d")

/-- The placeholder entry body for "pdf" (src/api/index.py line 112). -/
def pdfNote : String := "PDF export not implemented yet."

/-- The zip body built by `make_zip_response` (src/api/index.py lines
103-114) as an ordered list of (entry name, entry text); `none` when the
`to_latex` call raises on an empty conversation. -/
def api_make_zip_entries (conv : Conversation) (fmts : List String) :
    Option (List (String × String)) :=
  let mdEntries := if "md" ∈ fmts then [("page.md", api_to_markdown conv)] else []
  let pdfEntries := if "pdf" ∈ fmts then [("README_PDF.txt", pdfNote)] else []
  if "tex" ∈ fmts then
    match api_to_latex conv with
    | none => none
    | some tex => some (mdEntries ++ [("page.tex", tex)] ++ pdfEntries)
  else some (mdEntries ++ pdfEntries)

/-- The format handling of `GET /export` (src/api/index.py lines 121-126):
note there is no fallback to the default when the filtered list is empty. -/
def api_export_get_formats (formats : Option String) : List String :=
  match formats with
  | none => ["md", "tex"]
  | some s =>
    if s ≠ "" then
      ((pySplit s ",").filter (fun f =>
          pyStrip f = "md" || pyStrip f = "tex" || pyStrip f = "pdf")).map (fun f => pyStrip f)
    else ["md", "tex"]

/-! ## Specification-side shorthands used to state the claims -/

/-- The surviving items of the embedded-JSON parse: the flattened mapping
after the role/emptiness filter, still in encounter order. -/
def survivors (nodes : List ShareNode) : List ShareItem :=
  (buildShareItems nodes 0).filter (fun m => shareKeep m)

/-- The conversation the embedded-JSON parse assembles from a given item
list. -/
def shareConvOf (url now : String) (items : List ShareItem) : Conversation :=
  { source := "chatgpt", url := url, created_at := now,
    messages := items.map (fun m => { speaker := m.author, content := m.text }) }

/-- The fixed header block of src/main.py's `to_markdown`. -/
def mdHeaderStr (conv : Conversation) : String :=
  pyJoin "\n"
    [ "# Conversation Export", "",
      "**Source:** " ++ conv.source,
      "**URL:** " ++ conv.url,
      "**Exported at:** " ++ conv.created_at, "" ]

/-- One speaker-labeled Markdown block of src/main.py's `to_markdown`. -/
def mdBlock (m : Message) : String :=
  "**" ++ pyCapitalize m.speaker ++ ":** " ++ m.content

/-- The fixed header block of src/main.py's `to_latex`. -/
def texHeaderStr (conv : Conversation) : String :=
  pyJoin "\n"
    [ "\\documentclass\x7barticle\x7d",
      "\\usepackage[margin=1in]\x7bgeometry\x7d",
      "\\usepackage[T1]\x7bfontenc\x7d",
      "\\usepackage[utf8]\x7binputenc\x7d",
      "\\begin\x7bdocument\x7d",
      "\\section*\x7bConversation Export\x7d",
      "",
      "\\textbf\x7bSource:\x7d " ++ escape_latex conv.source ++ "\\\\",
      "\\textbf\x7bURL:\x7d " ++ escape_latex conv.url ++ "\\\\",
      "\\textbf\x7bExported at:\x7d " ++ escape_latex conv.created_at ++ "\\\\[1em]" ]

/-- One per-message section of src/main.py's `to_latex`: speaker and content
each pass through `escape_latex` exactly once. -/
def texSection (m : Message) : String :=
  "\\textbf\x7b" ++ escape_latex (pyCapitalize m.speaker) ++ ":\x7d "
    ++ escape_latex m.content ++ "\\\\[0.75em]"

/-- A conversation exercising src/api/index.py's `to_latex` on content
holding an en dash. -/
def convC7 : Conversation :=
  { source := "chat", url := "u", created_at := "2024-05-06T07:08:09Z",
    messages := [{ speaker := "You", content := "x\na–b" }] }

/-- A 20001-character input for the truncation bound. -/
def longInput : String := String.mk (List.replicate 20001 'a')

/-! ## Helper lemmas -/

lemma pyJoin_cons (sep x : String) (xs : List String) (h : xs ≠ []) :
    pyJoin sep (x :: xs) = x ++ sep ++ pyJoin sep xs := by
  cases xs with
  | nil => exact absurd rfl h
  | cons y ys => rfl

lemma pyJoin_append (sep : String) (A B : List String) (hA : A ≠ []) (hB : B ≠ []) :
    pyJoin sep (A ++ B) = pyJoin sep A ++ sep ++ pyJoin sep B := by
  induction A with
  | nil => exact absurd rfl hA
  | cons x A ih =>
    cases A with
    | nil =>
      rw [List.singleton_append, pyJoin_cons sep x B hB]
      rfl
    | cons y A2 =>
      have h1 : (y :: A2) ++ B ≠ [] := by simp
      rw [List.cons_append, pyJoin_cons sep x ((y :: A2) ++ B) h1,
        ih (by simp), pyJoin_cons sep x (y :: A2) (by simp)]
      simp [String.append_assoc]

lemma pyJoin_lines (l : List String) (h : l ≠ []) :
    "\n" ++ pyJoin "\n" l = concatStrs (l.map fun s => "\n" ++ s) := by
  induction l with
  | nil => exact absurd rfl h
  | cons x xs ih =>
    cases xs with
    | nil => simp [pyJoin, concatStrs, String.append_empty]
    | cons y ys =>
      rw [pyJoin_cons _ _ _ (by simp), List.map_cons]
      have : concatStrs (("\n" ++ x) :: (y :: ys).map (fun s => "\n" ++ s)) =
          ("\n" ++ x) ++ concatStrs ((y :: ys).map (fun s => "\n" ++ s)) := rfl
      rw [this, ← ih (by simp)]
      simp [String.append_assoc]

lemma api_chat_messages (url : String) (doc : HtmlDoc) (now : String)
    (h : (apiChatDomains.any fun d => strContains (pyLower url) d) = true) :
    (api_parse_conversation url doc now).messages =
      doc.roleNodes.map (fun n =>
        { speaker := if n.role = "user" then "You" else "Assistant", content := n.text }) := by
  simp only [api_parse_conversation, h, if_true]

lemma api_to_latex_none {conv : Conversation} (h : conv.messages = []) :
    api_to_latex conv = none := by
  cases conv with
  | mk s u c m =>
    simp only at h
    subst h
    rfl

/-! ## Claims -/

/-- Claim C4: the Generic Fallback's truncation step (shared by both files)
caps content at the 20000-character budget plus the marker, ending with the
marker, whenever the input exceeds the budget; shorter input (the already
whitespace-collapsed text of `strip_html_to_text`) passes through unchanged
with no marker appended. -/
theorem c4_truncation_bound (t : String) :
    (20000 < t.length →
      (truncateText t).length = 20000 + truncMarker.length ∧
      ∃ pre, (truncateText t).data = pre ++ truncMarker.data) ∧
    (t.length ≤ 20000 → truncateText t = t) := by
  constructor
  · intro h
    rw [truncateText, if_pos h]
    constructor
    · rw [String.length_append]
      have hl : (String.mk (t.data.take 20000)).length = (t.data.take 20000).length := rfl
      rw [hl, List.length_take]
      have : t.length = t.data.length := rfl
      omega
    · exact ⟨t.data.take 20000, by rw [String.data_append]⟩
  · intro h
    rw [truncateText, if_neg (by omega)]

-- witness for C4 at a 20001-character input and at a short input
theorem c4_truncation_bound_witness :
    ((truncateText longInput).length = 20000 + truncMarker.length ∧
      ∃ pre, (truncateText longInput).data = pre ++ truncMarker.data) ∧
    truncateText "hi" = "hi" :=
  ⟨(c4_truncation_bound longInput).1
      (by show 20000 < (List.replicate 20001 'a').length
          rw [List.length_replicate]
          omega),
    (c4_truncation_bound "hi").2 (by decide)⟩

/-- Claim C6 (amended): in src/api/index.py any exception or non-success
status of the direct GET falls back to the rendered (Playwright) fetch; in
src/main.py the same conditions instead fail the request with a terminal
HTTP 400 error (shown by the counterexample), so the claimed fallback holds
only for the src/api/index.py fetcher. -/
theorem c6_fetch_fallback (status : Nat) (body rendered e : String) :
    (400 ≤ status → api_fetch_html_or_explain (.resp status body) rendered = rendered) ∧
    api_fetch_html_or_explain (.exc e) rendered = rendered ∧
    (status < 400 → api_fetch_html_or_explain (.resp status body) rendered = body) := by
  refine ⟨fun h => ?_, rfl, fun h => ?_⟩
  · simp [api_fetch_html_or_explain, h]
  · simp [api_fetch_html_or_explain, Nat.not_le_of_lt h]

-- witness for C6: a 403 response and an exception both yield the rendered page
theorem c6_fetch_fallback_witness :
    api_fetch_html_or_explain (.resp 403 "<h1>denied</h1>") "<html>rendered</html>"
        = "<html>rendered</html>" ∧
    api_fetch_html_or_explain (.resp 200 "<html>ok</html>") "<html>rendered</html>"
        = "<html>ok</html>" :=
  ⟨(c6_fetch_fallback 403 "<h1>denied</h1>" "<html>rendered</html>" "e").1 (by decide),
    (c6_fetch_fallback 200 "<html>ok</html>" "<html>rendered</html>" "e").2.2 (by decide)⟩

-- counterexample for C6 as stated: src/main.py's fetcher (used exactly for
-- the URLs not classified as ChatGPT) turns a non-success status into a
-- terminal error instead of falling back to a rendered fetch
theorem c6_fetch_fallback_counterexample :
    main_fetch_html_or_explain (.resp 403 "<h1>denied</h1>") =
      Except.error "The URL you pasted returned HTTP 403. rocthinc can only export pages that load normally in a browser without extra steps." := by
  rfl

/-- Claim C8: the interstitial/wall detector of src/main.py is a pure
predicate returning true exactly when one of the fixed phrase fragments
occurs in the lowercased HTML (case-insensitive substring match, the
fragments being lowercase), or when no role-marker elements exist in the
markup. -/
theorem c8_wall_detector (doc : HtmlDoc) :
    looks_like_chatgpt_login_or_landing doc = true ↔
      (∃ s ∈ bad_snippets, strContains (pyLower doc.raw) s = true) ∨ doc.roleNodes = [] := by
  unfold looks_like_chatgpt_login_or_landing
  cases h : bad_snippets.any (fun s => strContains (pyLower doc.raw) s) with
  | true =>
    simp only [h, if_true, true_iff]
    exact Or.inl (by simpa [List.any_eq_true] using h)
  | false =>
    have hno : ¬∃ s ∈ bad_snippets, strContains (pyLower doc.raw) s = true := by
      simpa [List.any_eq_true] using h
    simp only [h, Bool.false_eq_true, if_false]
    cases he : doc.roleNodes.isEmpty with
    | true => simp [List.isEmpty_iff.mp he]
    | false =>
      have : doc.roleNodes ≠ [] := by
        intro hx
        rw [hx] at he
        simp at he
      simp [hno, this]

/-- Claim C9 (amended): src/main.py's GET transport drops unrecognized
formats and yields exactly the default ["md", "tex"] whenever the requested
set is unset, empty, or names only unrecognized formats (i.e. the
split/strip/recognize pipeline leaves nothing), so its format list is never
empty and only ever holds md/tex/pdf; the POST transport of both files
defaults on an unset or empty list.  src/api/index.py's GET transport,
however, produces an empty format list — and hence a zero-entry archive —
when only unrecognized formats are named (shown by the counterexample). -/
theorem c9_format_defaulting (fopt : Option String) (s : String) :
    main_export_get_formats fopt ≠ [] ∧
    (∀ f ∈ main_export_get_formats fopt, f = "md" ∨ f = "tex" ∨ f = "pdf") ∧
    main_export_get_formats none = ["md", "tex"] ∧
    main_export_get_formats (some "") = ["md", "tex"] ∧
    ((((pySplit s ",").filter (fun f => pyStrip f ≠ "")).map (fun f => pyStrip f)).filter
        (fun f => f = "md" || f = "tex" || f = "pdf") = [] →
      main_export_get_formats (some s) = ["md", "tex"]) ∧
    post_formats none = ["md", "tex"] ∧ post_formats (some []) = ["md", "tex"] := by
  refine ⟨?_, ?_, rfl, by decide, ?_, rfl, rfl⟩
  case refine_3 =>
    intro h
    by_cases hs : s = ""
    · subst hs
      decide
    · unfold main_export_get_formats
      dsimp only
      rw [if_pos hs, h]
      rfl
  · cases fopt with
    | none => simp [main_export_get_formats]
    | some s =>
      simp only [main_export_get_formats]
      split
      · split
        · simp
        · next he => simpa [List.isEmpty_iff] using he
      · simp
  · cases fopt with
    | none =>
      intro f hf
      simp [main_export_get_formats] at hf
      rcases hf with h | h <;> simp [h]
    | some s =>
      intro f hf
      simp only [main_export_get_formats] at hf
      split at hf
      · split at hf
        · simp at hf
          rcases hf with h | h <;> simp [h]
        · have h2 := List.of_mem_filter hf
          simp at h2
          tauto
      · simp at hf
        rcases hf with h | h <;> simp [h]

-- witness for C9: an only-unrecognized request yields exactly the default
-- {md, tex}; a mixed request stays non-empty with only recognized formats
theorem c9_format_defaulting_witness :
    main_export_get_formats (some "docx,weird") = ["md", "tex"] ∧
    main_export_get_formats (some "md,docx") ≠ [] ∧
    ("md" = "md" ∨ "md" = "tex" ∨ "md" = "pdf") :=
  ⟨(c9_format_defaulting (some "docx,weird") "docx,weird").2.2.2.2.1 (by decide),
    (c9_format_defaulting (some "md,docx") "md,docx").1,
    (c9_format_defaulting (some "md,docx") "md,docx").2.1 "md" (by decide)⟩

-- counterexample for C9 as stated: src/api/index.py's GET transport maps an
-- all-unrecognized formats parameter to the empty list, and the resulting
-- archive has zero entries instead of the default {md, tex}
theorem c9_format_defaulting_counterexample :
    api_export_get_formats (some "docx") = [] ∧
    api_make_zip_entries
        { source := "web", url := "u", created_at := "t",
          messages := [{ speaker := "Page_Content", content := "x" }] }
        (api_export_get_formats (some "docx")) = some [] := by
  constructor <;> rfl

/-- Claim C10: src/api/index.py's `to_latex` dereferences the first message
unconditionally, so it is total exactly on conversations with a non-empty
message list; a chat-classified URL whose HTML has no role-marker elements
makes `parse_conversation` return a zero-message Conversation, and requesting
the tex format then drives `make_zip_response` into the out-of-bounds access
(modelled as `none`). -/
theorem c10_to_latex_partiality :
    (∀ conv : Conversation, (api_to_latex conv).isSome = true ↔ conv.messages ≠ []) ∧
    (∀ (url : String) (doc : HtmlDoc) (now : String),
      strContains (pyLower url) "chatgpt.com" = true → doc.roleNodes = [] →
      (api_parse_conversation url doc now).messages = [] ∧
      api_make_zip_entries (api_parse_conversation url doc now) ["tex"] = none) := by
  constructor
  · intro conv
    cases conv with
    | mk s u c m =>
      cases m with
      | nil => simp [api_to_latex]
      | cons a l => simp [api_to_latex]
  · intro url doc now hchat hempty
    have hany : (apiChatDomains.any fun d => strContains (pyLower url) d) = true := by
      simp [apiChatDomains, hchat]
    have hmsg : (api_parse_conversation url doc now).messages = [] := by
      rw [api_chat_messages url doc now hany, hempty]
      rfl
    refine ⟨hmsg, ?_⟩
    simp only [api_make_zip_entries]
    rw [api_to_latex_none hmsg]
    simp

-- witness for C10 at a concrete ChatGPT share URL with a bare document
theorem c10_to_latex_partiality_witness :
    (api_parse_conversation "https://chatgpt.com/share/abc"
        { raw := "<html></html>", roleNodes := [], strippedText := "", shareMapping := none }
        "t").messages = [] ∧
    api_make_zip_entries
        (api_parse_conversation "https://chatgpt.com/share/abc"
          { raw := "<html></html>", roleNodes := [], strippedText := "", shareMapping := none }
          "t") ["tex"] = none ∧
    (api_to_latex { source := "chat", url := "u", created_at := "t",
                    messages := [{ speaker := "You", content := "hi" }] }).isSome = true :=
  ⟨(c10_to_latex_partiality.2 "https://chatgpt.com/share/abc"
      { raw := "<html></html>", roleNodes := [], strippedText := "", shareMapping := none }
      "t" (by decide) rfl).1,
    (c10_to_latex_partiality.2 "https://chatgpt.com/share/abc"
      { raw := "<html></html>", roleNodes := [], strippedText := "", shareMapping := none }
      "t" (by decide) rfl).2,
    (c10_to_latex_partiality.1
      { source := "chat", url := "u", created_at := "t",
        messages := [{ speaker := "You", content := "hi" }] }).mpr (by decide)⟩

lemma filterMap_text_all_nonempty (l : List RoleNode) (h : ∀ n ∈ l, n.text ≠ "") :
    (l.filterMap fun n =>
        if n.text = "" then none
        else some ({ speaker := roleOf n, content := n.text } : Message)) =
      l.map fun n => ({ speaker := roleOf n, content := n.text } : Message) := by
  induction l with
  | nil => rfl
  | cons a l ih =>
    rw [List.filterMap_cons, if_neg (h a (List.mem_cons_self a l)), List.map_cons,
      ih (fun n hn => h n (List.mem_cons_of_mem a hn))]

lemma filterMap_text_eq_filter_map (l : List RoleNode) :
    (l.filterMap fun n =>
        if n.text = "" then none
        else some ({ speaker := roleOf n, content := n.text } : Message)) =
      (l.filter fun n => n.text ≠ "").map
        fun n => ({ speaker := roleOf n, content := n.text } : Message) := by
  induction l with
  | nil => rfl
  | cons a l ih =>
    by_cases h : a.text = ""
    · simp [List.filterMap_cons, List.filter_cons, h, ih]
    · simp [List.filterMap_cons, List.filter_cons, h, ih]

lemma dom_some_messages {doc : HtmlDoc} {url now : String} {conv : Conversation}
    (h : parse_chatgpt_dom doc url now = some conv) : conv.messages ≠ [] := by
  unfold parse_chatgpt_dom at h
  by_cases h1 : doc.roleNodes.isEmpty
  · rw [if_pos h1] at h
    exact Option.noConfusion h
  · rw [if_neg h1] at h
    dsimp only at h
    by_cases h2 : (doc.roleNodes.filterMap fun n =>
        if n.text = "" then none
        else some ({ speaker := roleOf n, content := n.text } : Message)).isEmpty
    · rw [if_pos h2] at h
      exact Option.noConfusion h
    · rw [if_neg h2] at h
      injection h with h
      subst h
      simpa [List.isEmpty_iff] using h2

lemma share_some_messages {doc : HtmlDoc} {url now : String} {conv : Conversation}
    (h : parse_chatgpt_share_from_html doc url now = some conv) : conv.messages ≠ [] := by
  unfold parse_chatgpt_share_from_html at h
  cases hm : doc.shareMapping with
  | none =>
    rw [hm] at h
    exact Option.noConfusion h
  | some nodes =>
    rw [hm] at h
    dsimp only at h
    by_cases h2 : ((buildShareItems nodes 0).filter (fun m => shareKeep m)).isEmpty
    · rw [if_pos h2] at h
      exact Option.noConfusion h
    · rw [if_neg h2] at h
      injection h with h
      subst h
      intro hx
      simp only [List.map_eq_nil_iff] at hx
      have hperm := List.perm_insertionSort shareKeyLe
        ((buildShareItems nodes 0).filter (fun m => shareKeep m))
      rw [sortShareItems] at hx
      rw [hx] at hperm
      exact h2 (by simp [hperm.symm.eq_nil])

/-- Claim C1 (amended): src/main.py's `parse_conversation` never returns a
Conversation with an empty message list — a strategy yielding zero messages
falls through to the next one or ends in a terminal error.  In
src/api/index.py, however, `parse_conversation` returns a zero-message
Conversation for a chat-classified URL whose document has no role-marker
elements (shown by the counterexample). -/
theorem c1_extraction_nonempty (url : String) (doc : HtmlDoc) (now : String)
    (conv : Conversation)
    (h : main_parse_conversation url doc now = Except.ok conv) : conv.messages ≠ [] := by
  unfold main_parse_conversation at h
  dsimp only at h
  by_cases hchat : (strContains (pyLower url) "chatgpt.com"
      || strContains (pyLower url) "chat.openai.com") = true
  · rw [if_pos hchat] at h
    by_cases hwall : looks_like_chatgpt_login_or_landing doc = true
    · rw [if_pos hwall] at h
      exact Except.noConfusion h
    · rw [if_neg hwall] at h
      cases hdom : parse_chatgpt_dom doc url now with
      | some c =>
        rw [hdom] at h
        injection h with h
        exact h ▸ dom_some_messages hdom
      | none =>
        rw [hdom] at h
        dsimp only at h
        cases hshare : parse_chatgpt_share_from_html doc url now with
        | some c =>
          rw [hshare] at h
          injection h with h
          exact h ▸ share_some_messages hshare
        | none =>
          rw [hshare] at h
          exact Except.noConfusion h
  · rw [if_neg hchat] at h
    injection h with h
    rw [← h]
    simp

-- witness for C1: the generic path of src/main.py returns one message
theorem c1_extraction_nonempty_witness :
    ({ source := "unknown", url := "https://example.com/a", created_at := "t",
       messages := [{ speaker := "assistant", content := "hi there" }] } :
        Conversation).messages ≠ [] :=
  c1_extraction_nonempty "https://example.com/a"
    { raw := "<p>hi</p>", roleNodes := [], strippedText := "hi there", shareMapping := none }
    "t" _ (by rfl)

-- counterexample for C1 as stated: src/api/index.py's `parse_conversation`
-- returns a Conversation (no error) whose message list is empty
theorem c1_extraction_nonempty_counterexample :
    (api_parse_conversation "https://chatgpt.com/c/1"
        { raw := "<html>x</html>", roleNodes := [], strippedText := "x", shareMapping := none }
        "t").messages = [] := by
  rfl

/-- Claim C2 (amended): src/main.py's DOM Attribute Scan (`parse_chatgpt_dom`)
returns None when no role-marker elements exist, and on N elements with
non-empty extracted text yields exactly those N messages in document order
under the deterministic role mapping (`node.get(...) or "assistant"` passed
through as the speaker); on mixed input the elements with empty text — and
only those — are filtered out (the surviving messages are exactly the
non-empty-text elements in document order), and a document whose elements all
have empty text is a miss (None).
src/api/index.py's scan also yields one message per element in document order
with its two-way role mapping, but performs no empty-text filtering (the
counterexample shows an empty-content message surviving). -/
theorem c2_dom_scan (doc : HtmlDoc) (url now : String) :
    (doc.roleNodes = [] → parse_chatgpt_dom doc url now = none) ∧
    (doc.roleNodes ≠ [] → (∀ n ∈ doc.roleNodes, n.text ≠ "") →
      parse_chatgpt_dom doc url now =
        some { source := "chatgpt", url := url, created_at := now,
               messages := doc.roleNodes.map
                 (fun n => { speaker := roleOf n, content := n.text }) }) ∧
    ((doc.roleNodes.filter fun n => n.text ≠ "") ≠ [] →
      parse_chatgpt_dom doc url now =
        some { source := "chatgpt", url := url, created_at := now,
               messages := (doc.roleNodes.filter fun n => n.text ≠ "").map
                 (fun n => { speaker := roleOf n, content := n.text }) }) ∧
    (doc.roleNodes ≠ [] → (doc.roleNodes.filter fun n => n.text ≠ "") = [] →
      parse_chatgpt_dom doc url now = none) ∧
    (∀ (url2 : String) (doc2 : HtmlDoc) (now2 : String),
      (apiChatDomains.any fun d => strContains (pyLower url2) d) = true →
      (api_parse_conversation url2 doc2 now2).messages =
        doc2.roleNodes.map (fun n =>
          { speaker := if n.role = "user" then "You" else "Assistant", content := n.text })) := by
  refine ⟨?_, ?_, ?_, ?_, fun url2 doc2 now2 h => api_chat_messages url2 doc2 now2 h⟩
  · intro h
    unfold parse_chatgpt_dom
    rw [if_pos (by simp [h])]
  · intro hne hall
    unfold parse_chatgpt_dom
    rw [if_neg (by simpa [List.isEmpty_iff] using hne)]
    dsimp only
    rw [filterMap_text_all_nonempty doc.roleNodes hall,
      if_neg (by simpa [List.isEmpty_iff, List.map_eq_nil_iff] using hne)]
  · intro hf
    have hne : doc.roleNodes ≠ [] := by
      intro hx
      rw [hx] at hf
      exact hf rfl
    unfold parse_chatgpt_dom
    rw [if_neg (by simpa [List.isEmpty_iff] using hne)]
    dsimp only
    rw [filterMap_text_eq_filter_map,
      if_neg (by simpa [List.isEmpty_iff, List.map_eq_nil_iff] using hf)]
  · intro hne hf
    unfold parse_chatgpt_dom
    rw [if_neg (by simpa [List.isEmpty_iff] using hne)]
    dsimp only
    rw [filterMap_text_eq_filter_map, hf]
    rfl

-- witness for C2: two well-formed role elements yield exactly two messages
-- in document order; the empty-role document is a miss; and on mixed input
-- the empty-text element is filtered out of the result
theorem c2_dom_scan_witness :
    parse_chatgpt_dom
        { raw := "", roleNodes := [{ role := "user", text := "Hello" },
                                   { role := "assistant", text := "Hi there" }],
          strippedText := "", shareMapping := none } "u" "t" =
      some { source := "chatgpt", url := "u", created_at := "t",
             messages := [{ speaker := "user", content := "Hello" },
                          { speaker := "assistant", content := "Hi there" }] } ∧
    parse_chatgpt_dom
        { raw := "", roleNodes := [], strippedText := "", shareMapping := none } "u" "t" = none ∧
    parse_chatgpt_dom
        { raw := "", roleNodes := [{ role := "user", text := "Hello" },
                                   { role := "tool", text := "" },
                                   { role := "assistant", text := "Hi there" }],
          strippedText := "", shareMapping := none } "u" "t" =
      some { source := "chatgpt", url := "u", created_at := "t",
             messages := [{ speaker := "user", content := "Hello" },
                          { speaker := "assistant", content := "Hi there" }] } :=
  ⟨(c2_dom_scan
      { raw := "", roleNodes := [{ role := "user", text := "Hello" },
                                 { role := "assistant", text := "Hi there" }],
        strippedText := "", shareMapping := none } "u" "t").2.1 (by decide) (by decide),
    (c2_dom_scan
      { raw := "", roleNodes := [], strippedText := "", shareMapping := none } "u" "t").1 rfl,
    (c2_dom_scan
      { raw := "", roleNodes := [{ role := "user", text := "Hello" },
                                 { role := "tool", text := "" },
                                 { role := "assistant", text := "Hi there" }],
        strippedText := "", shareMapping := none } "u" "t").2.2.1 (by decide)⟩

-- counterexample for C2 as stated: in src/api/index.py a role element whose
-- extracted text is empty is not filtered out — it becomes a message with
-- empty content
theorem c2_dom_scan_counterexample :
    (api_parse_conversation "https://chatgpt.com/c/1"
        { raw := "", roleNodes := [{ role := "user", text := "" }], strippedText := "",
          shareMapping := none } "t").messages =
      [{ speaker := "You", content := "" }] := by
  rfl

/-- Claim C5 (amended): src/api/index.py's scan applies the fixed two-way
mapping — the "user" role value becomes the "You" speaker tag and every other
role value becomes "Assistant" — so every produced speaker is one of those
two tags.  src/main.py's `parse_chatgpt_dom`, however, passes the role
attribute value through verbatim as the speaker label (counterexample: roles
user/assistant/tool yield three distinct speaker labels). -/
theorem c5_role_mapping (url : String) (doc : HtmlDoc) (now : String)
    (h : (apiChatDomains.any fun d => strContains (pyLower url) d) = true) :
    (api_parse_conversation url doc now).messages =
      doc.roleNodes.map (fun n =>
        { speaker := if n.role = "user" then "You" else "Assistant", content := n.text }) ∧
    ∀ m ∈ (api_parse_conversation url doc now).messages,
      m.speaker = "You" ∨ m.speaker = "Assistant" := by
  refine ⟨api_chat_messages url doc now h, ?_⟩
  rw [api_chat_messages url doc now h]
  intro m hm
  rw [List.mem_map] at hm
  obtain ⟨n, -, rfl⟩ := hm
  by_cases hr : n.role = "user" <;> simp [hr]

-- witness for C5: a "user" element and a "tool" element map to the two tags
theorem c5_role_mapping_witness :
    (api_parse_conversation "https://claude.ai/share/1"
        { raw := "", roleNodes := [{ role := "user", text := "q" }, { role := "tool", text := "a" }],
          strippedText := "", shareMapping := none } "t").messages =
      [{ speaker := "You", content := "q" }, { speaker := "Assistant", content := "a" }] ∧
    ("Assistant" = "You" ∨ "Assistant" = "Assistant") :=
  ⟨(c5_role_mapping "https://claude.ai/share/1"
      { raw := "", roleNodes := [{ role := "user", text := "q" }, { role := "tool", text := "a" }],
        strippedText := "", shareMapping := none } "t" (by decide)).1,
    (c5_role_mapping "https://claude.ai/share/1"
      { raw := "", roleNodes := [{ role := "user", text := "q" }, { role := "tool", text := "a" }],
        strippedText := "", shareMapping := none } "t" (by decide)).2
      { speaker := "Assistant", content := "a" } (by decide)⟩

-- counterexample for C5 as stated: src/main.py's scan emits the role values
-- themselves as speaker labels — three distinct labels, not a fixed two-way
-- requester/responder mapping
theorem c5_role_mapping_counterexample :
    (parse_chatgpt_dom
        { raw := "", roleNodes := [{ role := "user", text := "a" },
                                   { role := "assistant", text := "b" },
                                   { role := "tool", text := "c" }],
          strippedText := "", shareMapping := none } "u" "t").map
        (fun c => c.messages.map Message.speaker) =
      some ["user", "assistant", "tool"] ∧
    ¬("tool" = "You" ∨ "tool" = "Assistant") := by
  constructor
  · rfl
  · decide

lemma buildShareItems_order (nodes : List ShareNode) (k : Nat) :
    (∀ m ∈ buildShareItems nodes k, k ≤ m.order) ∧
    List.Pairwise (fun a b : ShareItem => a.order < b.order) (buildShareItems nodes k) := by
  induction nodes generalizing k with
  | nil => simp [buildShareItems]
  | cons n rest ih =>
    cases hm : n.message with
    | none =>
      rw [buildShareItems, hm]
      exact ih k
    | some msg =>
      rw [buildShareItems, hm]
      obtain ⟨ih1, ih2⟩ := ih (k + 1)
      constructor
      · intro m hmem
        rcases List.mem_cons.mp hmem with rfl | hmem
        · exact le_refl k
        · exact Nat.le_of_succ_le (ih1 m hmem)
      · exact List.pairwise_cons.mpr ⟨fun m hmem => Nat.lt_of_succ_le (ih1 m hmem), ih2⟩

lemma survivors_order (nodes : List ShareNode) :
    List.Pairwise (fun a b : ShareItem => a.order < b.order) (survivors nodes) :=
  List.Pairwise.filter _ (buildShareItems_order nodes 0).2

lemma sortShareItems_sorted (items : List ShareItem) :
    List.Pairwise shareKeyLe (sortShareItems items) :=
  List.sorted_insertionSort shareKeyLe items

/-- Claim C3: in src/main.py's embedded structured-data parse the surviving
items are sorted by (create_time ascending, encounter index ascending); with
strictly increasing create_time the output keeps the mapping's item order,
and with all create_time equal (in particular all absent, hence 0) the output
keeps the original encounter order.  The parse is a pure function, so the
result is identical across repeated runs on the same input. -/
theorem c3_share_ordering (doc : HtmlDoc) (url now : String) (nodes : List ShareNode)
    (hmap : doc.shareMapping = some nodes) :
    List.Pairwise shareKeyLe (sortShareItems (survivors nodes)) ∧
    (List.Pairwise (fun a b : ShareItem => a.create_time < b.create_time) (survivors nodes) →
      parse_chatgpt_share_from_html doc url now =
        if (survivors nodes).isEmpty then none
        else some (shareConvOf url now (survivors nodes))) ∧
    ((∀ a ∈ survivors nodes, ∀ b ∈ survivors nodes, a.create_time = b.create_time) →
      parse_chatgpt_share_from_html doc url now =
        if (survivors nodes).isEmpty then none
        else some (shareConvOf url now (survivors nodes))) := by
  have hparse : ∀ hs : sortShareItems (survivors nodes) = survivors nodes,
      parse_chatgpt_share_from_html doc url now =
        if (survivors nodes).isEmpty then none
        else some (shareConvOf url now (survivors nodes)) := by
    intro hs
    unfold parse_chatgpt_share_from_html
    rw [hmap]
    dsimp only
    rw [show ((buildShareItems nodes 0).filter fun m => shareKeep m) = survivors nodes from rfl,
      hs]
    rfl
  refine ⟨sortShareItems_sorted (survivors nodes), ?_, ?_⟩
  · intro hlt
    exact hparse (List.Sorted.insertionSort_eq (hlt.imp fun hab => Or.inl hab))
  · intro heq
    have hord := survivors_order nodes
    have hsorted : List.Pairwise shareKeyLe (survivors nodes) :=
      List.Pairwise.imp_of_mem
        (fun {a b} ha hb hr => Or.inr ⟨heq a ha b hb, Nat.le_of_lt hr⟩) hord
    exact hparse (List.Sorted.insertionSort_eq hsorted)

-- witness for C3: two timestamped messages in reversed mapping order come
-- out sorted; the survivors here are in strictly increasing time order
theorem c3_share_ordering_witness :
    parse_chatgpt_share_from_html
        { raw := "", roleNodes := [], strippedText := "",
          shareMapping := some
            [ { message := some { authorRole := some "user",
                                  content := some { content_type := some "text",
                                                    parts := some ["Hello"], textField := none,
                                                    serialized := "s" },
                                  create_time := some 2 }, create_time := none },
              { message := some { authorRole := some "assistant",
                                  content := some { content_type := some "text",
                                                    parts := some ["Hi there"], textField := none,
                                                    serialized := "s" },
                                  create_time := some 5 }, create_time := none } ] }
        "u" "t" =
      if (survivors
            [ { message := some { authorRole := some "user",
                                  content := some { content_type := some "text",
                                                    parts := some ["Hello"], textField := none,
                                                    serialized := "s" },
                                  create_time := some 2 }, create_time := none },
              { message := some { authorRole := some "assistant",
                                  content := some { content_type := some "text",
                                                    parts := some ["Hi there"], textField := none,
                                                    serialized := "s" },
                                  create_time := some 5 }, create_time := none } ]).isEmpty
      then none
      else some (shareConvOf "u" "t"
        (survivors
            [ { message := some { authorRole := some "user",
                                  content := some { content_type := some "text",
                                                    parts := some ["Hello"], textField := none,
                                                    serialized := "s" },
                                  create_time := some 2 }, create_time := none },
              { message := some { authorRole := some "assistant",
                                  content := some { content_type := some "text",
                                                    parts := some ["Hi there"], textField := none,
                                                    serialized := "s" },
                                  create_time := some 5 }, create_time := none } ])) :=
  (c3_share_ordering
    { raw := "", roleNodes := [], strippedText := "",
      shareMapping := some
        [ { message := some { authorRole := some "user",
                              content := some { content_type := some "text",
                                                parts := some ["Hello"], textField := none,
                                                serialized := "s" },
                              create_time := some 2 }, create_time := none },
          { message := some { authorRole := some "assistant",
                              content := some { content_type := some "text",
                                                parts := some ["Hi there"], textField := none,
                                                serialized := "s" },
                              create_time := some 5 }, create_time := none } ] }
    "u" "t" _ rfl).2.1 (by decide)

lemma pyJoin_md_blocks (msgs : List Message) (h : msgs ≠ []) :
    "\n" ++ pyJoin "\n" (msgs.flatMap fun m =>
        [ "**" ++ pyCapitalize m.speaker ++ ":** " ++ m.content, "" ]) =
      concatStrs (msgs.map fun m => "\n" ++ mdBlock m ++ "\n") := by
  induction msgs with
  | nil => exact absurd rfl h
  | cons m ms ih =>
    cases ms with
    | nil =>
      show "\n" ++ pyJoin "\n" [mdBlock m, ""] = concatStrs ["\n" ++ mdBlock m ++ "\n"]
      simp [pyJoin, concatStrs, String.append_assoc, String.append_empty]
    | cons m2 ms2 =>
      have hrest : ((m2 :: ms2).flatMap fun m =>
          [ "**" ++ pyCapitalize m.speaker ++ ":** " ++ m.content, "" ]) ≠ [] := by
        simp
      have e1 : ((m :: m2 :: ms2).flatMap fun m =>
            [ "**" ++ pyCapitalize m.speaker ++ ":** " ++ m.content, "" ]) =
          mdBlock m :: "" :: ((m2 :: ms2).flatMap fun m =>
            [ "**" ++ pyCapitalize m.speaker ++ ":** " ++ m.content, "" ]) := by
        simp [mdBlock]
      rw [e1, show pyJoin "\n" (mdBlock m :: "" :: ((m2 :: ms2).flatMap fun m =>
            [ "**" ++ pyCapitalize m.speaker ++ ":** " ++ m.content, "" ])) =
          mdBlock m ++ "\n" ++ pyJoin "\n" ("" :: ((m2 :: ms2).flatMap fun m =>
            [ "**" ++ pyCapitalize m.speaker ++ ":** " ++ m.content, "" ])) from rfl,
        pyJoin_cons "\n" "" _ hrest, List.map_cons]
      rw [show concatStrs (("\n" ++ mdBlock m ++ "\n") :: (m2 :: ms2).map
            (fun m => "\n" ++ mdBlock m ++ "\n")) =
          ("\n" ++ mdBlock m ++ "\n") ++ concatStrs ((m2 :: ms2).map
            (fun m => "\n" ++ mdBlock m ++ "\n")) from rfl,
        ← ih (by simp)]
      simp [String.append_assoc, String.empty_append]

/-- Claim C7 (amended): src/main.py's renderers are structurally faithful —
`to_markdown` is the fixed header followed by exactly one speaker-labeled
block per message, and `to_latex` is the header followed by exactly one
escaped section per message and the closing line, both in message order,
with each speaker and content field passing through `escape_latex` exactly
once (see `texSection`) and the content otherwise verbatim.
src/api/index.py's `to_latex`, however, does not emit per-message sections:
it concatenates all message contents into a single blob and applies further
unicode substitutions after escaping, altering content beyond escaping
(shown by the counterexample). -/
theorem c7_render_structure (conv : Conversation) :
    to_markdown conv =
      mdHeaderStr conv ++ concatStrs (conv.messages.map fun m => "\n" ++ mdBlock m ++ "\n") ∧
    to_latex conv =
      texHeaderStr conv ++ concatStrs (conv.messages.map fun m => "\n" ++ texSection m)
        ++ "\n" ++ "\\end\x7bdocument\x7d" := by
  constructor
  · cases hms : conv.messages with
    | nil =>
      unfold to_markdown
      rw [hms]
      simp [mdHeaderStr, concatStrs, String.append_empty]
    | cons m ms =>
      unfold to_markdown
      rw [hms, pyJoin_append "\n" _ _ (by simp) (by simp), String.append_assoc,
        pyJoin_md_blocks (m :: ms) (by simp)]
      rfl
  · cases hms : conv.messages with
    | nil =>
      unfold to_latex
      rw [hms]
      simp only [List.map_nil, List.nil_append]
      rw [pyJoin_append "\n" _ _ (by simp) (by simp)]
      simp only [texHeaderStr, concatStrs, List.map_nil, List.foldr_nil, String.append_empty,
        String.append_assoc]
      rfl
    | cons m ms =>
      unfold to_latex
      rw [hms]
      have hl : "\n" ++ pyJoin "\n" ((m :: ms).map (fun m =>
            "\\textbf\x7b" ++ escape_latex (pyCapitalize m.speaker) ++ ":\x7d "
              ++ escape_latex m.content ++ "\\\\[0.75em]")) =
          concatStrs ((m :: ms).map fun x => "\n" ++ texSection x) := by
        rw [pyJoin_lines _ (by simp), List.map_map]
        rfl
      rw [pyJoin_append "\n" _ _ (by simp) (by simp),
        pyJoin_append "\n" _ _ (by simp) (by simp), ← hl,
        show pyJoin "\n" ["\\end\x7bdocument\x7d"] = "\\end\x7bdocument\x7d" from rfl]
      simp only [String.append_assoc, texHeaderStr]

-- counterexample for C7 as stated: src/api/index.py's `to_latex` on a
-- one-message conversation whose content holds an en dash — the escaped
-- content never appears in the output (it was rewritten to "--" after
-- escaping, and merged into a single blob), so the LaTeX rendering is not
-- K escaped per-message sections with content unaltered beyond escaping
theorem c7_render_structure_counterexample :
    strContains ((api_to_latex convC7).getD "") (escape_latex "x\na–b") = false ∧
    strContains ((api_to_latex convC7).getD "") "x\na--b" = true := by
  constructor
  · decide
  · decide
